import Mathlib

/-!
Verification of the two icon-generator scripts of the `arbor` repository:
`create_tree_icon.py` (tree icon) and
`apps/desktop/src-tauri/icons/create_icon.py` (badge icon).

Both scripts draw PIL primitives on a 1024×1024 RGB canvas and save a PNG.
We embed the drawing calls shallowly: a pixel's final color is computed by
testing the drawn shapes in reverse draw order (the shape drawn last wins),
which is exactly PIL's painter model for opaque fills.  Colors are kept as
the hex strings the source passes to PIL.  PIL boxes `[x0, y0, x1, y1]` are
inclusive of both corners; a filled ellipse covers the pixels inside the
ellipse inscribed in its bounding box.
-/

/-- A pixel `(x, y)` lies in the filled rectangle with inclusive
bounding box `[x0, y0, x1, y1]` (PIL `draw.rectangle`). -/
def inRect (x0 y0 x1 y1 x y : Int) : Bool :=
  decide (x0 ≤ x ∧ x ≤ x1 ∧ y0 ≤ y ∧ y ≤ y1)

/-- A pixel `(x, y)` lies in the filled ellipse inscribed in the bounding
box `[x0, y0, x1, y1]` (PIL `draw.ellipse`): with center
`c = ((x0+x1)/2, (y0+y1)/2)` and semi-axes `a = (x1-x0)/2`, `b = (y1-y0)/2`,
the test `((x-cx)/a)^2 + ((y-cy)/b)^2 ≤ 1`, cleared of denominators so it
stays in integers. -/
def inEllipse (x0 y0 x1 y1 x y : Int) : Bool :=
  let dx := 2 * x - (x0 + x1)
  let dy := 2 * y - (y0 + y1)
  let w := x1 - x0
  let h := y1 - y0
  decide (dx * dx * (h * h) + dy * dy * (w * w) ≤ (w * w) * (h * h))

/-- Inclusive bounding box of a PIL drawing primitive. -/
structure Box where
  x0 : Int
  y0 : Int
  x1 : Int
  y1 : Int
  deriving Repr, DecidableEq

/-- The doubled center of a bounding box (doubling keeps it in integers). -/
def boxCenter2 (b : Box) : Int × Int := (b.x0 + b.x1, b.y0 + b.y1)

/-- Pixel membership for a box interpreted as a filled ellipse. -/
def Box.ell (b : Box) (x y : Int) : Bool := inEllipse b.x0 b.y0 b.x1 b.y1 x y

/-- Pixel membership for a box interpreted as a filled rectangle. -/
def Box.rect (b : Box) (x y : Int) : Bool := inRect b.x0 b.y0 b.x1 b.y1 x y

/-- One PIL drawing call, as issued by the scripts. -/
inductive DrawOp where
  | rectangle (box : Box) (fill : String)
  | ellipseOp (box : Box) (fill : String)
  | textOp (xy : Int × Int) (s : String) (fill : String)
  deriving Repr, DecidableEq

/-- Metadata of the image a script saves: PIL mode, dimensions, target path. -/
structure SavedImage where
  mode : String
  width : Int
  height : Int
  path : String
  deriving Repr, DecidableEq

/-! ## Tree icon generator (`create_tree_icon.py`) -/

namespace Tree

/-- `size = 1024` -/
def size : Int := 1024

/-- `trunk_width = 80` -/
def trunk_width : Int := 80

/-- `trunk_height = 300` -/
def trunk_height : Int := 300

/-- `trunk_x = (size - trunk_width) // 2` -/
def trunk_x : Int := (size - trunk_width) / 2

/-- `trunk_y = size - trunk_height - 100` -/
def trunk_y : Int := size - trunk_height - 100

/-- `center_x = size // 2` -/
def center_x : Int := size / 2

/-- `center_y = trunk_y - 100` -/
def center_y : Int := trunk_y - 100

/-- Background fill passed to `Image.new`: light blue. -/
def background : String := "#f0f9ff"

/-- Trunk fill color: brown. -/
def trunkColor : String := "#8b4513"

/-- `canopy_color`: green of the bottom (largest) canopy circle. -/
def canopy_color : String := "#22c55e"

/-- Fill of the middle canopy circle: darker green. -/
def middleColor : String := "#16a34a"

/-- Fill of the top (smallest) canopy circle: even darker green. -/
def topColor : String := "#15803d"

/-- Bounding box of the trunk rectangle:
`[trunk_x, trunk_y, trunk_x + trunk_width, trunk_y + trunk_height]`. -/
def trunkBox : Box :=
  ⟨trunk_x, trunk_y, trunk_x + trunk_width, trunk_y + trunk_height⟩

/-- Bounding box of the bottom (largest) canopy circle:
`[center_x - 250, center_y - 50, center_x + 250, center_y + 450]`. -/
def bottomBox : Box :=
  ⟨center_x - 250, center_y - 50, center_x + 250, center_y + 450⟩

/-- Bounding box of the middle canopy circle:
`[center_x - 220, center_y - 150, center_x + 220, center_y + 300]`. -/
def middleBox : Box :=
  ⟨center_x - 220, center_y - 150, center_x + 220, center_y + 300⟩

/-- Bounding box of the top (smallest) canopy circle:
`[center_x - 180, center_y - 220, center_x + 180, center_y + 180]`. -/
def topBox : Box :=
  ⟨center_x - 180, center_y - 220, center_x + 180, center_y + 180⟩

/-- The four drawing calls of the script, in source order. -/
def ops : List DrawOp :=
  [ DrawOp.rectangle trunkBox trunkColor,
    DrawOp.ellipseOp bottomBox canopy_color,
    DrawOp.ellipseOp middleBox middleColor,
    DrawOp.ellipseOp topBox topColor ]

/-- The three canopy drawing calls, in source (draw) order. -/
def canopyOps : List DrawOp :=
  [ DrawOp.ellipseOp bottomBox canopy_color,
    DrawOp.ellipseOp middleBox middleColor,
    DrawOp.ellipseOp topBox topColor ]

/-- Final color of pixel `(x, y)`: shapes are tested in reverse draw order,
so the shape drawn last (the top circle) wins where shapes overlap, exactly
as with PIL's opaque painter model. -/
def pixel (x y : Int) : String :=
  if topBox.ell x y then topColor
  else if middleBox.ell x y then middleColor
  else if bottomBox.ell x y then canopy_color
  else if trunkBox.rect x y then trunkColor
  else background

/-- `output_path = 'apps/desktop/src-tauri/icons/icon.png'` -/
def output_path : String := "apps/desktop/src-tauri/icons/icon.png"

/-- The image the script saves: `Image.new('RGB', (size, size), ...)`
written to `output_path` (PNG, chosen by the `.png` extension). -/
def saved : SavedImage := ⟨"RGB", size, size, output_path⟩

/-- The two lines the script prints on success, in order. -/
def messages : List String :=
  [ "✓ Tree icon created: " ++ output_path,
    "  Run \"pnpm tauri icon apps/desktop/src-tauri/icons/icon.png\" to generate all sizes" ]

end Tree

/-! ## Badge icon generator (`apps/desktop/src-tauri/icons/create_icon.py`) -/

namespace Badge

/-- Background fill passed to `Image.new`: blue. -/
def background : String := "#3b82f6"

/-- The image the script saves: `Image.new('RGB', (1024, 1024), ...)`
written to `'icon.png'`. -/
def saved : SavedImage := ⟨"RGB", 1024, 1024, "icon.png"⟩

/-- Bounding box of the fallback circle: `[262, 262, 762, 762]`. -/
def fallbackBox : Box := ⟨262, 262, 762, 762⟩

/-- A loaded font's rendering of the centered `'A'` glyph: at each pixel,
either the text draw leaves the pixel untouched (`none`) or paints it some
color (`some c`).  The font file is an external resource outside the
repository, so its rasterization is abstract; all the script guarantees is
that `d.text` only touches pixels the glyph covers. -/
def Glyph : Type := Int → Int → Option String

/-- Outcome of the `try` block's font-dependent render: `some g` when
`ImageFont.truetype` succeeded and `d.text` painted glyph `g`, `none` when
an exception was caught and the fallback circle was drawn instead. -/
def Outcome : Type := Option Glyph

/-- Whether pixel `(x, y)` is covered by the glyph (successful branch) or
by the fallback circle (exception branch). -/
def covered (o : Outcome) (x y : Int) : Bool :=
  match o with
  | some g => (g x y).isSome
  | none => fallbackBox.ell x y

/-- Final color of pixel `(x, y)` for a run with font-render outcome `o`:
the canvas starts as the solid background, then either the glyph paints its
pixels (successful branch) or the white fallback circle is filled
(exception branch). -/
def pixel (o : Outcome) (x y : Int) : String :=
  match o with
  | some g => (g x y).getD background
  | none => if fallbackBox.ell x y then "white" else background

/-- The body of the `try` block: `ImageFont.truetype` runs first; only if
it returns does `d.text` run.  Each step either returns or raises
(`Except.error` carries the exception's message). -/
def tryBody (fontLoad textDraw : Except String Unit) : Except String Unit :=
  match fontLoad with
  | Except.error e => Except.error e
  | Except.ok _ => textDraw

/-- Observable result of one run of the script. -/
structure RunResult where
  printed : List String
  ops : List DrawOp
  savedTo : Option SavedImage
  deriving Repr

/-- One run of the script, given the outcomes of the two fallible calls
inside the `try` block.  If the body raises, the `except` clause prints the
diagnostic and draws the fallback circle; either way the script then saves
the image and prints the success line. -/
def run (fontLoad textDraw : Except String Unit) : RunResult :=
  match tryBody fontLoad textDraw with
  | Except.ok _ =>
      { printed := ["✓ Icon created: icon.png"],
        ops := [DrawOp.textOp (512, 512) "A" "white"],
        savedTo := some saved }
  | Except.error e =>
      { printed := ["Could not load font: " ++ e, "✓ Icon created: icon.png"],
        ops := [DrawOp.ellipseOp fallbackBox "white"],
        savedTo := some saved }

/-- The diagnostic lines among a run's printed lines (every line other
than the unconditional success confirmation). -/
def diagnostics (r : RunResult) : List String :=
  r.printed.filter (fun s => s ≠ "✓ Icon created: icon.png")

end Badge

/-! ## Environments, for determinism (C8)

Neither script reads command-line arguments, environment variables, the
clock, randomness, or any file other than the font resource the badge
generator tries to load.  An `Env` records everything external a run could
conceivably observe: the font-load outcome plus ambient state the scripts
in fact never read (the invocation directory and whatever file currently
sits at the output path). -/

/-- External state visible to a run. -/
structure Env where
  fontOutcome : Badge.Outcome
  cwd : String
  priorOutputFile : Option (List UInt8)

/-- The badge image produced in environment `e`, as a pixel function: the
script's drawing depends only on the font-render outcome. -/
def badgeImage (e : Env) : Int → Int → String :=
  Badge.pixel e.fontOutcome

/-- The tree image produced in environment `e`, as a pixel function: the
script's drawing reads nothing external at all. -/
def treeImage (_e : Env) : Int → Int → String :=
  Tree.pixel

/-! ## Helper lemmas -/

/-- Whether a drawing call is a filled-ellipse call. -/
def isEllipseOp : DrawOp → Bool
  | DrawOp.ellipseOp _ _ => true
  | _ => false

/-- Every pixel of the trunk rectangle lies inside the bottom canopy
circle: the circle has center `(512, 724)` and radius `250`, and the
farthest trunk pixels `(472 or 552, 924)` are at squared distance
`40² + 200² = 41600 ≤ 250² = 62500` from that center. -/
lemma trunk_inside_bottom (x y : Int)
    (hx0 : 472 ≤ x) (hx1 : x ≤ 552) (hy0 : 624 ≤ y) (hy1 : y ≤ 924) :
    Tree.bottomBox.ell x y = true := by
  have hb : Tree.bottomBox = ⟨262, 474, 762, 974⟩ := by decide
  rw [hb]
  simp only [Box.ell, inEllipse, decide_eq_true_eq]
  nlinarith [mul_nonneg (by linarith : (0:Int) ≤ 552 - x) (by linarith : (0:Int) ≤ x - 472),
    mul_nonneg (by linarith : (0:Int) ≤ 924 - y) (by linarith : (0:Int) ≤ y - 624)]

/-! ## Claims -/

/-- C1: evaluation of the tree generator at the claim's pixel `(512, 874)`
(canvas center, `y = size - 150`).  The trunk rectangle does cover this
pixel, but the bottom canopy circle — drawn after the trunk — covers it
too, so the final color is the bottom-canopy green `#22c55e`, not the
trunk brown `#8b4513` the claim states. -/
theorem C1_pixel_at_bottom_margin :
    Tree.pixel 512 874 = Tree.canopy_color ∧
    Tree.canopy_color ≠ Tree.trunkColor ∧
    Tree.trunkBox.rect 512 874 = true ∧
    Tree.bottomBox.ell 512 874 = true := by decide

/-- C2 (counterexample): the canopy ellipses are not concentric on the
canopy center point — the bottom ellipse's bounding box `[262, 474, 762, 974]`
is centered at `(512, 724)`, not at `(center_x, center_y) = (512, 524)`. -/
theorem C2_not_concentric :
    boxCenter2 Tree.bottomBox ≠ (2 * Tree.center_x, 2 * Tree.center_y) := by decide

/-- C2 (amended): the tree generator draws exactly three filled ellipses,
in largest-to-smallest order with fills `#22c55e`, `#16a34a`, `#15803d`;
each bounding box is a fixed offset box relative to the canopy center
`(512, 524)` and all three are horizontally centered at `x = 512`, but
their centers are `(512, 724)`, `(512, 599)`, `(512, 504)` — three
different points, so the ellipses are layered, not concentric. -/
theorem C2_canopy_layers :
    Tree.ops.filter isEllipseOp = Tree.canopyOps ∧
    Tree.canopyOps =
      [ DrawOp.ellipseOp ⟨262, 474, 762, 974⟩ "#22c55e",
        DrawOp.ellipseOp ⟨292, 374, 732, 824⟩ "#16a34a",
        DrawOp.ellipseOp ⟨332, 304, 692, 704⟩ "#15803d" ] ∧
    boxCenter2 Tree.bottomBox = (2 * 512, 2 * 724) ∧
    boxCenter2 Tree.middleBox = (2 * 512, 2 * 599) ∧
    boxCenter2 Tree.topBox = (2 * 512, 2 * 504) ∧
    (Tree.bottomBox.x1 - Tree.bottomBox.x0 = 500 ∧ Tree.bottomBox.y1 - Tree.bottomBox.y0 = 500) ∧
    (Tree.middleBox.x1 - Tree.middleBox.x0 = 440 ∧ Tree.middleBox.y1 - Tree.middleBox.y0 = 450) ∧
    (Tree.topBox.x1 - Tree.topBox.x0 = 360 ∧ Tree.topBox.y1 - Tree.topBox.y0 = 400) := by
  decide

/-- C3: the pixel at the canopy center point `(512, 524)` has the
innermost canopy color `#15803d`; indeed that point lies inside all three
canopy circles, and the smallest one, drawn last, wins. -/
theorem C3_canopy_center_pixel :
    Tree.pixel Tree.center_x Tree.center_y = Tree.topColor ∧
    Tree.topColor = "#15803d" ∧
    Tree.topBox.ell 512 524 = true ∧
    Tree.middleBox.ell 512 524 = true ∧
    Tree.bottomBox.ell 512 524 = true := by decide

/-- C5: the tree generator writes a 1024×1024 RGB image to the fixed path
`apps/desktop/src-tauri/icons/icon.png`, and all four corner pixels have
exactly the background color `#f0f9ff`. -/
theorem C5_tree_output_and_corners :
    Tree.saved = ⟨"RGB", 1024, 1024, "apps/desktop/src-tauri/icons/icon.png"⟩ ∧
    Tree.background = "#f0f9ff" ∧
    Tree.pixel 0 0 = Tree.background ∧
    Tree.pixel 1023 0 = Tree.background ∧
    Tree.pixel 0 1023 = Tree.background ∧
    Tree.pixel 1023 1023 = Tree.background := by decide

/-- C7: the trunk is a filled rectangle of width 80 and height 300,
horizontally centered (x from 472 to 552), bottom-anchored with a 100px
margin (y from 624 to 924), filled `#8b4513`, drawn first; and the canopy
center point lies 100px above the trunk's top edge, at `(512, 524)`. -/
theorem C7_trunk_geometry :
    Tree.trunk_width = 80 ∧
    Tree.trunk_height = 300 ∧
    Tree.trunkBox = ⟨472, 624, 552, 924⟩ ∧
    2 * Tree.trunk_x + Tree.trunk_width = Tree.size ∧
    Tree.size - (Tree.trunk_y + Tree.trunk_height) = 100 ∧
    Tree.ops.head? = some (DrawOp.rectangle Tree.trunkBox Tree.trunkColor) ∧
    Tree.trunkColor = "#8b4513" ∧
    Tree.center_y = Tree.trunk_y - 100 ∧
    Tree.center_x = 512 ∧
    Tree.center_y = 524 := by decide

/-- C9: no pixel of the tree generator's final image has the trunk color
`#8b4513`: the only brown drawing call is the trunk rectangle, and every
pixel of that rectangle lies inside the bottom canopy circle, which is
drawn after it and repaints it green. -/
theorem C9_no_trunk_colored_pixel (x y : Int) :
    Tree.pixel x y ≠ Tree.trunkColor := by
  unfold Tree.pixel
  split
  · decide
  split
  · decide
  split
  · decide
  next hbot =>
    split
    · next ht =>
        exfalso
        have htr : Tree.trunkBox = ⟨472, 624, 552, 924⟩ := by decide
        rw [htr] at ht
        simp only [Box.rect, inRect, decide_eq_true_eq] at ht
        exact hbot (trunk_inside_bottom x y ht.1 ht.2.1 ht.2.2.1 ht.2.2.2)
    · decide

/-- C4: whenever the `try` block's font-dependent render raises (with any
message `e`), the exception is caught, the run prints exactly the
diagnostic naming the failure followed by the success line, draws the
centered white fallback circle `[262, 262, 762, 762]` instead of the
glyph, and still saves the 1024×1024 RGB image to `icon.png`. -/
theorem C4_font_failure_fallback (fl td : Except String Unit) (e : String)
    (h : Badge.tryBody fl td = Except.error e) :
    Badge.run fl td =
      { printed := ["Could not load font: " ++ e, "✓ Icon created: icon.png"],
        ops := [DrawOp.ellipseOp ⟨262, 262, 762, 762⟩ "white"],
        savedTo := some ⟨"RGB", 1024, 1024, "icon.png"⟩ } := by
  unfold Badge.run
  rw [h]
  rfl

/-- C4 witness: concrete failing font load. -/
theorem C4_font_failure_fallback_witness :
    Badge.tryBody (Except.error "font missing") (Except.ok ()) =
      Except.error "font missing" ∧
    Badge.run (Except.error "font missing") (Except.ok ()) =
      { printed := ["Could not load font: font missing", "✓ Icon created: icon.png"],
        ops := [DrawOp.ellipseOp ⟨262, 262, 762, 762⟩ "white"],
        savedTo := some ⟨"RGB", 1024, 1024, "icon.png"⟩ } :=
  ⟨rfl, C4_font_failure_fallback (Except.error "font missing") (Except.ok ()) "font missing" rfl⟩

/-- C6: for every font-render outcome, every pixel not covered by the
glyph (successful branch) or by the fallback circle (exception branch)
has exactly the background color `#3b82f6`, and the run saves a 1024×1024
RGB image to the fixed relative path `icon.png`. -/
theorem C6_badge_background_pixels (o : Badge.Outcome) (x y : Int)
    (h : Badge.covered o x y = false) :
    Badge.pixel o x y = Badge.background ∧
    Badge.background = "#3b82f6" ∧
    Badge.saved = ⟨"RGB", 1024, 1024, "icon.png"⟩ := by
  refine ⟨?_, rfl, rfl⟩
  match o with
  | none =>
      simp only [Badge.covered] at h
      simp [Badge.pixel, h]
  | some g =>
      simp only [Badge.covered] at h
      cases hg : g x y with
      | none => simp [Badge.pixel, hg]
      | some c =>
          rw [hg] at h
          simp at h

/-- C6 witness: the corner pixel `(0, 0)` in the fallback branch. -/
theorem C6_badge_background_pixels_witness :
    Badge.covered none 0 0 = false ∧
    (Badge.pixel none 0 0 = Badge.background ∧
     Badge.background = "#3b82f6" ∧
     Badge.saved = ⟨"RGB", 1024, 1024, "icon.png"⟩) :=
  ⟨by decide, C6_badge_background_pixels none 0 0 (by decide)⟩

/-- C8: both generators are deterministic functions of their environment:
two runs whose environments agree on the font-render outcome (the only
external input either script reads) produce pixel-identical badge images,
and the tree image is identical across all environments whatsoever — in
particular the invocation directory and whatever file already sits at the
output path have no influence, so a second run rewrites an identical
image. -/
theorem C8_deterministic (e1 e2 : Env) (h : e1.fontOutcome = e2.fontOutcome) :
    badgeImage e1 = badgeImage e2 ∧ treeImage e1 = treeImage e2 := by
  constructor
  · unfold badgeImage
    rw [h]
  · rfl

/-- C8 witness: two environments differing in working directory and prior
output-file contents but agreeing on the font outcome. -/
theorem C8_deterministic_witness :
    (⟨none, "/repo", none⟩ : Env).fontOutcome = (⟨none, "/tmp", some [0]⟩ : Env).fontOutcome ∧
    (badgeImage ⟨none, "/repo", none⟩ = badgeImage ⟨none, "/tmp", some [0]⟩ ∧
     treeImage ⟨none, "/repo", none⟩ = treeImage ⟨none, "/tmp", some [0]⟩) :=
  ⟨rfl, C8_deterministic ⟨none, "/repo", none⟩ ⟨none, "/tmp", some [0]⟩ rfl⟩

/-- C10: the `try` block wraps both the font load and the text draw: an
exception raised by the glyph draw itself (font load succeeded) also
propagates out of the body, triggers the diagnostic and the fallback
circle, and for every outcome of the two calls the script still reaches
the save — the glyph-render phase can never terminate the run. -/
theorem C10_handler_covers_text_draw (fl td : Except String Unit) (e : String) :
    Badge.tryBody (Except.ok ()) (Except.error e) = Except.error e ∧
    Badge.run (Except.ok ()) (Except.error e) =
      { printed := ["Could not load font: " ++ e, "✓ Icon created: icon.png"],
        ops := [DrawOp.ellipseOp Badge.fallbackBox "white"],
        savedTo := some Badge.saved } ∧
    (Badge.run fl td).savedTo = some Badge.saved := by
  refine ⟨rfl, rfl, ?_⟩
  unfold Badge.run
  cases h : Badge.tryBody fl td <;> simp
